import Mathlib

/-!
Shallow embedding of the fx-backend confluence engine.

Source files embedded here:
  * `src/backend/confluence.py` — cache (`_cached_download`), resampler
    (`_resample_from_daily`), indicators (`_ema`, `_atr`), structure and
    BOS detection (`_detect_structure`, `_detect_bos`), per-timeframe
    analysis (`_analyze_tf`, `_is_strong`), aggregation
    (`_compute_for_symbol`) and the batch driver (`get_confluence`).
  * `src/twelve.py` — `calculate_confluence`.
  * `src/confluence.py` — `analyze_series`.
  * `src/backend/strategy.py` — `confidence_pct`.

Modelling conventions: pandas Series become Lean lists of exact rationals
(no NaN bars; the Python code drops NaN rows before the logic modelled
here, so `dropna` is the identity in the model).  Python floats become
`ℚ`; Python `round` (banker's rounding, half to even) is `pyRound`.
Timestamps are integers.  Network I/O is abstracted into oracle
functions passed explicitly, so the cache and orchestrator logic stay
pure and executable.
-/

attribute [local semireducible] Rat.mul Rat.add Rat.sub Rat.inv Rat.ofScientific

/-- One OHLCV bar (a row of the pandas DataFrames used by the sources). -/
structure Bar where
  open_ : ℚ
  high : ℚ
  low : ℚ
  close : ℚ
  volume : ℚ
deriving DecidableEq, Repr

/-- Python `str.lower` (the labels involved are ASCII, where
`Char.toLower` agrees with Python). -/
def lowerString (s : String) : String :=
  String.mk (s.toList.map Char.toLower)

/-- `needle` occurs at the start of `hay` (helper for substring search). -/
def listStarts : List Char → List Char → Bool
  | [], _ => true
  | _ :: _, [] => false
  | a :: as, b :: bs => a == b && listStarts as bs

/-- Helper for `strHas`: does `needle` occur in `hay`? -/
def listHas (hay needle : List Char) : Bool :=
  match hay with
  | [] => needle.isEmpty
  | _ :: t => listStarts needle hay || listHas t needle

/-- Python's substring test `needle in hay`. -/
def strHas (hay needle : String) : Bool :=
  listHas hay.toList needle.toList

/-- Python 3 `round` on a rational: nearest integer, ties to even. -/
def pyRound (q : ℚ) : ℤ :=
  let f : ℤ := ⌊q⌋
  let r : ℚ := q - f
  if r < 1/2 then f
  else if 1/2 < r then f + 1
  else if f % 2 = 0 then f else f + 1

/-- `round((c / t) * 100)` as it appears in the Python aggregation code. -/
def pctOf (c t : ℕ) : ℤ :=
  pyRound ((c : ℚ) / (t : ℚ) * 100)

/-- Direction flag assigned to each timeframe by `_compute_for_symbol`
(`"bull" in tl`, `"bear" in tl`, else neutral — `"No Data"`, i.e. a
`None` trend label, lands on neutral). -/
inductive DirFlag where
  | bull
  | bear
  | neutral
deriving DecidableEq, Repr

/-- `src/backend/confluence.py` lines 483-490: lower-case the trend label
(`None` becomes `""`) and test for the substrings `"bull"` / `"bear"`. -/
def dirFlag (tl : Option String) : DirFlag :=
  let t := lowerString (tl.getD "")
  if strHas t "bull" then DirFlag.bull
  else if strHas t "bear" then DirFlag.bear
  else DirFlag.neutral

/-- The percent computation of `_compute_for_symbol` (lines 497-507),
as a function of the three tallies and the denominator `total`. -/
def aggPercentCounts (bulls bears neutrals total : ℕ) : ℤ :=
  if bulls > bears ∧ bulls > neutrals then pctOf bulls total
  else if bears > bulls ∧ bears > neutrals then pctOf bears total
  else pctOf (max bulls (max bears neutrals)) total

/-- `_compute_for_symbol` aggregation, percent part: flags for all
timeframes (in configuration order), tallies, `total = len(dir_flags)
if dir_flags else 1`. -/
def aggPercent (labels : List (Option String)) : ℤ :=
  let flags := labels.map dirFlag
  aggPercentCounts (flags.count DirFlag.bull) (flags.count DirFlag.bear)
    (flags.count DirFlag.neutral)
    (if flags.length = 0 then 1 else flags.length)

/-- `_compute_for_symbol` aggregation step (lines 480-518): the
`(ConfluencePercent, Summary)` pair computed from the per-timeframe
trend labels.  `Summary` is `f"{percent}% confluence"` when the percent
is positive and `"No Confluence"` otherwise (line 510). -/
def aggregateBackend (labels : List (Option String)) : ℤ × String :=
  (aggPercent labels,
    if 0 < aggPercent labels then toString (aggPercent labels) ++ "% confluence"
    else "No Confluence")

/-- `calculate_confluence` from `src/twelve.py` (lines 97-120).  The
input is the list of the four per-timeframe trend strings (`""` marks a
timeframe without data); `total = len(TF_MAP) = 4`. -/
def calcTwelve (trends : List String) : ℤ × String :=
  let vals := trends.filter (fun v => v != "")
  if vals.length < 1 then (0, "No Data")
  else
    let bull := vals.countP (fun v => strHas v "Bull")
    let bear := vals.countP (fun v => strHas v "Bear")
    if bull = 4 then (100, "Strong Bullish")
    else if bear = 4 then (100, "Strong Bearish")
    else if bull ≥ 3 then (75, "Bullish Bias")
    else if bear ≥ 3 then (75, "Bearish Bias")
    else if bull = 2 then (50, "Mild Bullish")
    else if bear = 2 then (50, "Mild Bearish")
    else (0, "No Clear Confluence")

/-- The directional values kept by `confidence_pct`
(`src/backend/strategy.py` lines 79-86): drop everything that is not
exactly `"Bullish"` or `"Bearish"` (so `None` and `"Sideways"` are
ignored). -/
def dirVals (w d h4 h1 : Option String) : List String :=
  ([w, d, h4, h1].map (fun v => v.getD "")).filter
    (fun v => v == "Bullish" || v == "Bearish")

/-- `confidence_pct` from `src/backend/strategy.py` (lines 79-91). -/
def confidencePct (w d h4 h1 : Option String) : ℤ :=
  let vals := dirVals w d h4 h1
  if vals.isEmpty then 0
  else
    let bullish := vals.count "Bullish"
    let bearish := vals.count "Bearish"
    pyRound ((max bullish bearish : ℚ) / (vals.length : ℚ) * 100)

/-- Modelled from the spec's words (§4.4), for comparison only:
`percent = round(100 × max(bull_count, bear_count) / valid_count)`. -/
def specPercent (bull bear valid : ℕ) : ℤ :=
  pyRound (100 * (max bull bear : ℚ) / (valid : ℚ))

/-- Python `abs` on a rational. -/
def qabs (q : ℚ) : ℚ := if q < 0 then -q else q

/-- Tail of `series.ewm(span=span, adjust=False).mean()` after the seed:
`ema[i] = α·close[i] + (1-α)·ema[i-1]`. -/
def emaAux (a : ℚ) (prev : ℚ) : List ℚ → List ℚ
  | [] => []
  | c :: cs =>
    let e := a * c + (1 - a) * prev
    e :: emaAux a e cs

/-- `_ema` from `src/backend/confluence.py` (and the inline `ewm` calls of
the other sources): exponential moving average with `adjust=False`,
`α = 2/(span+1)`, seeded with the first close. -/
def emaList (span : ℕ) (close : List ℚ) : List ℚ :=
  match close with
  | [] => []
  | c :: cs => c :: emaAux (2 / ((span : ℚ) + 1)) c cs

/-- True ranges of the bars after the first, given the previous close
(`max(high-low, |high-prev_close|, |low-prev_close|)`). -/
def trAux (pc : ℚ) : List Bar → List ℚ
  | [] => []
  | b :: bs =>
    max (b.high - b.low) (max (qabs (b.high - pc)) (qabs (b.low - pc))) :: trAux b.close bs

/-- True-range series of `_atr`: for the first bar `close.shift(1)` is
NaN, and the row-wise pandas `max` skips NaN, leaving `high - low`. -/
def trList : List Bar → List ℚ
  | [] => []
  | b :: bs => (b.high - b.low) :: trAux b.close bs

/-- Last value of `_atr(df, length=14)`: `rolling(window=14,
min_periods=1).mean()` at the last position is the mean of the last
`min(14, n)` true ranges. -/
def atrLast (bars : List Bar) : ℚ :=
  let trs := trList bars
  let lastK := trs.drop (trs.length - 14)
  lastK.sum / (lastK.length : ℚ)

/-- Least-squares (degree-1 `np.polyfit`) slope of `ys` against
`x = 0, 1, …, len-1`: `(m·Σxy − Σx·Σy) / (m·Σx² − (Σx)²)`. -/
def lstsqSlope (ys : List ℚ) : ℚ :=
  let m : ℚ := (ys.length : ℚ)
  let sx : ℚ := ((List.range ys.length).map (fun i => (i : ℚ))).sum
  let sxx : ℚ := ((List.range ys.length).map (fun i => (i : ℚ) * (i : ℚ))).sum
  let sy : ℚ := ys.sum
  let sxy : ℚ := (ys.enum.map (fun p => (p.1 : ℚ) * p.2)).sum
  (m * sxy - sx * sy) / (m * sxx - sx * sx)

/-- `_detect_structure` from `src/backend/confluence.py` (lines 192-224);
`_analyze_tf` calls it with `lookback=12`.  `tail(lookback)` keeps the
last `min(lookback, len)` values. -/
def detectStructure (bars : List Bar) (lookback : ℕ) : String :=
  if bars.length < 6 then "UNKNOWN"
  else
    let highs := (bars.map (·.high)).drop (bars.length - lookback)
    let lows := (bars.map (·.low)).drop (bars.length - lookback)
    if highs.length < 3 ∨ lows.length < 3 then "UNKNOWN"
    else
      let hiSlope := lstsqSlope highs
      let loSlope := lstsqSlope lows
      if 0 < hiSlope ∧ 0 < loSlope then "HH_HL"
      else if hiSlope < 0 ∧ loSlope < 0 then "LH_LL"
      else "RANGE"

/-- Local-maxima indices scanned by `_detect_bos`
(`for i in range(1, min(len(h_vals)-1, 200))`): strict maxima against
both neighbours, with the scan capped at index 199. -/
def localMaxIdxCapped (h : List ℚ) : List ℕ :=
  (List.range (min (h.length - 1) 200)).filter
    (fun i => decide (1 ≤ i) &&
      decide (h.getD (i-1) 0 < h.getD i 0) && decide (h.getD (i+1) 0 < h.getD i 0))

/-- Local-minima indices scanned by `_detect_bos`, same index range. -/
def localMinIdxCapped (l : List ℚ) : List ℕ :=
  (List.range (min (l.length - 1) 200)).filter
    (fun i => decide (1 ≤ i) &&
      decide (l.getD i 0 < l.getD (i-1) 0) && decide (l.getD i 0 < l.getD (i+1) 0))

/-- The BOS-up test of `_detect_bos`: at least two scanned maxima, the
last exceeding the second-to-last, and the last within the final 8 bars
(`len(h_vals) - k <= 8`). -/
def bosUpFire (h : List ℚ) : Bool :=
  let maxima := localMaxIdxCapped h
  match maxima.getLast?, maxima.dropLast.getLast? with
  | some k, some j => decide (h.getD j 0 < h.getD k 0) && decide (h.length - k ≤ 8)
  | _, _ => false

/-- The BOS-down test of `_detect_bos`, symmetric on the minima. -/
def bosDownFire (l : List ℚ) : Bool :=
  let minima := localMinIdxCapped l
  match minima.getLast?, minima.dropLast.getLast? with
  | some k, some j => decide (l.getD k 0 < l.getD j 0) && decide (l.length - k ≤ 8)
  | _, _ => false

/-- `_detect_bos` from `src/backend/confluence.py` (lines 227-282):
fewer than 6 bars yields no signal; BOS-up is checked before BOS-down;
the returned strings carry the source's leading space and parentheses. -/
def detectBos (bars : List Bar) : String :=
  if bars.length < 6 then ""
  else
    let h := bars.map (·.high)
    let l := bars.map (·.low)
    if bosUpFire h then " (BOS_up)"
    else if bosDownFire l then " (BOS_down)"
    else ""

/-- `_is_strong` from `src/backend/confluence.py` (lines 311-333): the
adaptive strong threshold (base 0.008, scaled by ATR relative to price).
`_analyze_tf` always passes the computed last ATR value (the `None`
case of the Python signature arises only from an `_atr` exception,
impossible on NaN-free frames). -/
def isStrong (trendPct : ℚ) (atr : ℚ) (price : ℚ) : Bool :=
  if price = 0 then false
  else
    let baseThresh : ℚ :=
      if 0 < atr then
        let relAtr := atr / price
        if relAtr < 0.002 then 0.008 * 0.8
        else if 0.02 < relAtr then 0.008 * 1.25
        else 0.008
      else 0.008
    decide (baseThresh ≤ qabs trendPct)

/-- Result record of `_analyze_tf` (the keys of its output dict). -/
structure TfAnalysis where
  trendLabel : Option String
  structLabel : String
  bos : String
  atr : Option ℚ
  price : Option ℚ
  label : String
deriving DecidableEq, Repr

/-- The initial `out` dict of `_analyze_tf`, returned for empty input. -/
def initOut : TfAnalysis :=
  { trendLabel := none, structLabel := "UNKNOWN", bos := "",
    atr := none, price := none, label := "No Data" }

/-- EMA period chosen by `_analyze_tf`: 200 for Weekly/Daily, 50 for H4,
20 otherwise (H1). -/
def emaPeriod (tf : String) : ℕ :=
  if tf = "Weekly" ∨ tf = "Daily" then 200 else if tf = "H4" then 50 else 20

/-- Close column of a frame (`df["Close"].dropna()`; the model is
NaN-free, so this is the projection). -/
def closesOf (bars : List Bar) : List ℚ := bars.map (·.close)

/-- `float(close.iloc[-1])`, the last price used by `_analyze_tf`. -/
def lastCloseOf (bars : List Bar) : ℚ := (closesOf bars).getLast?.getD 0

/-- `float(ema_series.iloc[-1])` for the timeframe's EMA period. -/
def emaLastOf (bars : List Bar) (tf : String) : ℚ :=
  (emaList (emaPeriod tf) (closesOf bars)).getLast?.getD 0

/-- `trend_pct = (price - ema_val) / (ema_val if ema_val != 0 else
price)` from `_analyze_tf`. -/
def trendPctOf (bars : List Bar) (tf : String) : ℚ :=
  let price := lastCloseOf bars
  let emaV := emaLastOf bars tf
  (price - emaV) / (if emaV ≠ 0 then emaV else price)

/-- The `strong_flag` computed by `_analyze_tf`. -/
def strongOf (bars : List Bar) (tf : String) : Bool :=
  isStrong (trendPctOf bars tf) (atrLast bars) (lastCloseOf bars)

/-- `_compose_label` from `src/backend/confluence.py` (lines 285-308).
The ATR branch there appends the empty string, a no-op not modelled. -/
def composeLabel (trendLabel : Option String) (structLabel bos : String) : String :=
  let base := trendLabel.getD "No Trend"
  let structPart :=
    if structLabel ≠ "" ∧ structLabel ≠ "UNKNOWN" ∧ structLabel ≠ "RANGE" then
      " (" ++ structLabel ++ ")"
    else if structLabel = "RANGE" then " (" ++ structLabel ++ ")"
    else ""
  base ++ structPart ++ bos

/-- `_analyze_tf` from `src/backend/confluence.py` (lines 336-427).  A
zero EMA together with a zero price makes the Python `trend_pct`
division raise `ZeroDivisionError`; the bare except then returns `out`,
which at that point already carries the price and ATR. -/
def analyzeTf (bars : List Bar) (tf : String) : TfAnalysis :=
  if bars.isEmpty then initOut
  else
    let price := lastCloseOf bars
    let atrV := atrLast bars
    let emaV := emaLastOf bars tf
    if emaV = 0 ∧ price = 0 then
      { initOut with atr := some atrV, price := some price }
    else
      let trendPct := trendPctOf bars tf
      let strong := strongOf bars tf
      let lbl :=
        if 0 < trendPct then "Bullish"
        else if trendPct < 0 then "Bearish"
        else "Neutral"
      let trendLabel :=
        if strong then
          if lbl = "Bullish" then "Strong Bullish"
          else if lbl = "Bearish" then "Strong Bearish"
          else "Neutral"
        else lbl
      let st := detectStructure bars 12
      let bos := detectBos bars
      { trendLabel := some trendLabel, structLabel := st, bos := bos,
        atr := some atrV, price := some price,
        label := composeLabel (some trendLabel) st bos }

/-- The classification `_analyze_tf` actually implements, as a function
of the distance sign and the strong flag alone. -/
def signClassify (d : ℚ) (strong : Bool) : String :=
  if 0 < d then (if strong then "Strong Bullish" else "Bullish")
  else if d < 0 then (if strong then "Strong Bearish" else "Bearish")
  else "Neutral"

/-- Modelled from the spec's words (§4.3 step 3), for comparison only:
`slope = last_ema − ema[i-2]` (three-bar lookback), 0 when fewer than 3
EMA points exist. -/
def specSlope (close : List ℚ) (span : ℕ) : ℚ :=
  let e := emaList span close
  if e.length < 3 then 0
  else e.getLast?.getD 0 - (e.get? (e.length - 3)).getD 0

/-- Modelled from the spec's words (§4.3 step 4), for comparison only:
the five-rule priority table combining distance and slope. -/
def specTrendTable (d slope thresh : ℚ) : String :=
  if thresh < d ∧ 0 < slope then "Strong Bullish"
  else if d < -thresh ∧ slope < 0 then "Strong Bearish"
  else if 0 < d ∧ 0 ≤ slope then "Bullish"
  else if d < 0 ∧ slope ≤ 0 then "Bearish"
  else "Neutral"

/-- Modelled from the spec's words (§4.3 BOS), for comparison only: the
local maxima of the highs over the whole series (a bar whose high
exceeds both neighbours), with no index cap. -/
def specLocalMax (h : List ℚ) : List ℕ :=
  (List.range (h.length - 1)).filter
    (fun i => decide (1 ≤ i) &&
      decide (h.getD (i-1) 0 < h.getD i 0) && decide (h.getD (i+1) 0 < h.getD i 0))

/-- Modelled from the spec's words, for comparison only: local minima of
the lows over the whole series. -/
def specLocalMin (l : List ℚ) : List ℕ :=
  (List.range (l.length - 1)).filter
    (fun i => decide (1 ≤ i) &&
      decide (l.getD i 0 < l.getD (i-1) 0) && decide (l.getD i 0 < l.getD (i+1) 0))

/-- Modelled from the spec's words (§4.3 BOS / claim C9): the two most
recent local maxima are increasing and the latest lies within the last
8 bars. -/
def specBosUp (h : List ℚ) : Bool :=
  let maxima := specLocalMax h
  match maxima.getLast?, maxima.dropLast.getLast? with
  | some k, some j => decide (h.getD j 0 < h.getD k 0) && decide (h.length - k ≤ 8)
  | _, _ => false

/-- Symmetric spec-side condition on the minima of the lows. -/
def specBosDown (l : List ℚ) : Bool :=
  let minima := specLocalMin l
  match minima.getLast?, minima.dropLast.getLast? with
  | some k, some j => decide (l.getD k 0 < l.getD j 0) && decide (l.length - k ≤ 8)
  | _, _ => false

/-- Python `round(x, 4)` on a rational (ties to even). -/
def round4 (q : ℚ) : ℚ := ((pyRound (q * 10000) : ℚ)) / 10000

/-- Result record of `analyze_series` from `src/confluence.py`.  The
`trend_text` key is presentation-only (an f-string of `trend` and the
two-decimal rendering of `distance_pct`, empty exactly when `trend`
is empty) and is not modelled. -/
structure SAnalysis where
  trend : String
  distancePct : ℚ
  bos : String
deriving DecidableEq, Repr

/-- `analyze_series` from `src/confluence.py` (lines 116-165): EMA200
trend with a ±1.0 percent strong threshold and a one-bar BOS check. -/
def analyzeSeries (df : List Bar) : SAnalysis :=
  if df.length < 10 then { trend := "", distancePct := 0, bos := "" }
  else
    let close := df.map (·.close)
    let high := df.map (·.high)
    let low := df.map (·.low)
    let lastClose := close.getLast?.getD 0
    let lastEma := (emaList 200 close).getLast?.getD 0
    let distancePct := if lastEma ≠ 0 then (lastClose - lastEma) / lastEma * 100 else 0
    let trend :=
      if lastEma < lastClose then
        (if 1 < distancePct then "Strong Bullish" else "Bullish")
      else if lastClose < lastEma then
        (if distancePct < -1 then "Strong Bearish" else "Bearish")
      else ""
    let n := df.length
    let bos :=
      if 2 ≤ high.length then
        (if high.getD (n-2) 0 < high.getD (n-1) 0 ∧ close.getD (n-2) 0 < close.getD (n-1) 0
          then "BOS_up"
        else if low.getD (n-1) 0 < low.getD (n-2) 0 ∧ close.getD (n-1) 0 < close.getD (n-2) 0
          then "BOS_down"
        else "")
      else ""
    { trend := trend, distancePct := round4 distancePct, bos := bos }

/-- Cache key of `_cached_download`: `(symbol, interval, start if start
else "")`. -/
abbrev CacheKey := String × String × String

/-- The in-memory `CACHE` dict: association list, most recent binding
first (`List.lookup` returns the first match, so consing a binding is
the dict update). Downloaded frames are abstract handles (`ℕ`); the
stored `Option` distinguishes a cached frame from the cached `None`
failure marker. -/
abbrev DlCache := List (CacheKey × (ℤ × Option ℕ))

/-- `CACHE_TTL = 60 * 3` seconds. -/
def cacheTTL : ℤ := 180

/-- The retry loop of `_cached_download`: attempts numbered `a`, `n`
attempts remaining, result of the first successful attempt.  A `none`
from the oracle covers every per-attempt failure treated identically by
the source (exception, empty frame, missing Close/Adj Close column). -/
def firstSomeAux (src : ℕ → Option ℕ) : ℕ → ℕ → Option ℕ
  | _, 0 => none
  | a, n+1 =>
    match src a with
    | some d => some d
    | none => firstSomeAux src (a+1) n

/-- `for attempt in range(1, retries + 2)`: `retries + 1` attempts
starting at attempt 1. -/
def downloadLoop (src : ℕ → Option ℕ) (retries : ℕ) : Option ℕ :=
  firstSomeAux src 1 (retries + 1)

/-- `CACHE.pop(key, None)`. -/
def eraseKey (k : CacheKey) (c : DlCache) : DlCache :=
  c.filter (fun e => e.1 != k)

/-- The non-cached tail of `_cached_download`: run the retry loop, store
the outcome (frame or `None` failure marker) under `key` with the entry
timestamp `now`, and report that the source was invoked. -/
def afterMiss (c : DlCache) (now : ℤ) (k : CacheKey) (src : ℕ → Option ℕ)
    (retries : ℕ) : Option ℕ × DlCache × Bool :=
  match downloadLoop src retries with
  | some df => (some df, (k, (now, some df)) :: c, true)
  | none => (none, (k, (now, none)) :: c, true)

/-- `_cached_download` from `src/backend/confluence.py` (lines 96-150).
Returns `(result, new cache, whether the external source was
invoked)`. A live cache entry (strictly younger than the TTL) is
returned verbatim — including a cached failure marker; an expired entry
is popped before re-downloading. -/
def cachedDownload (c : DlCache) (now : ℤ) (sym itv : String)
    (start : Option String) (src : ℕ → Option ℕ) (retries : ℕ) :
    Option ℕ × DlCache × Bool :=
  let key : CacheKey := (sym, itv, start.getD "")
  match List.lookup key c with
  | some (ts, df) =>
    if now - ts < cacheTTL then (df, c, false)
    else afterMiss (eraseKey key c) now key src retries
  | none => afterMiss c now key src retries

/-- Forward-fill lookup of `_resample_from_daily`: the value reindexed
at grid time `t` is the last source bar at or before `t` (the source
frame is ascending by timestamp); `none` (NaN, dropped) when no source
bar lies at or before `t`. -/
def ffillAt (df : List (ℕ × Bar)) (t : ℕ) : Option Bar :=
  ((df.filter (fun p => p.1 ≤ t)).getLast?).map (fun p => p.2)

/-- `_resample_from_daily` from `src/backend/confluence.py` (lines
153-171).  Timestamps are modelled in hours; the `rule` is the grid
step in hours (4 for "4H", 1 for "1H").  The grid is
`pd.date_range(start=index.min(), end=index.max()+1 day, freq=rule,
closed="left")`: points `start + i·step` strictly before `end`, i.e.
`⌈(end-start)/step⌉` of them; reindex-with-ffill plus `dropna` keeps
the grid points with a source bar at or before them. -/
def resampleFromDaily (df : List (ℕ × Bar)) (step : ℕ) :
    Option (List (ℕ × Bar)) :=
  match df with
  | [] => none
  | x :: xs =>
    let start := xs.foldl (fun a p => min a p.1) x.1
    let endT := xs.foldl (fun a p => max a p.1) x.1 + 24
    let n := (endT - start + step - 1) / step
    let grid := (List.range n).map (fun i => start + i * step)
    some (grid.filterMap (fun t => (ffillAt (x :: xs) t).map (fun b => (t, b))))

/-- One entry of the `PAIRS` configuration of
`src/backend/confluence.py`. -/
structure PairCfg where
  pair : String
  symbol : String
deriving DecidableEq, Repr

/-- `PAIRS` from `src/backend/confluence.py` (lines 44-68). -/
def pairsList : List PairCfg := [
  ⟨"EUR/USD", "EURUSD=X"⟩, ⟨"GBP/USD", "GBPUSD=X"⟩, ⟨"USD/JPY", "USDJPY=X"⟩,
  ⟨"USD/CHF", "USDCHF=X"⟩, ⟨"AUD/USD", "AUDUSD=X"⟩, ⟨"NZD/USD", "NZDUSD=X"⟩,
  ⟨"USD/CAD", "USDCAD=X"⟩, ⟨"EUR/GBP", "EURGBP=X"⟩, ⟨"EUR/JPY", "EURJPY=X"⟩,
  ⟨"GBP/JPY", "GBPJPY=X"⟩, ⟨"AUD/JPY", "AUDJPY=X"⟩, ⟨"AUD/NZD", "AUDNZD=X"⟩,
  ⟨"CHF/JPY", "CHFJPY=X"⟩, ⟨"USD/TRY", "USDTRY=X"⟩, ⟨"USD/ZAR", "USDZAR=X"⟩,
  ⟨"USD/MXN", "USDMXN=X"⟩, ⟨"S&P 500", "^GSPC"⟩, ⟨"Dow Jones", "^DJI"⟩,
  ⟨"Nasdaq", "^IXIC"⟩, ⟨"FTSE 100", "^FTSE"⟩, ⟨"DAX", "^GDAXI"⟩,
  ⟨"Gold", "GC=F"⟩, ⟨"Silver", "SI=F"⟩]

/-- `TF_SETTINGS.keys()`, the timeframe iteration order. -/
def tfNames : List String := ["Weekly", "Daily", "H4", "H1"]

/-- The record assembled by `_compute_for_symbol` (the `Details` key, a
nested dict of per-timeframe analyses, is not needed by any claim and
is not modelled). -/
structure ConfRecord where
  pair : String
  symbol : String
  confluence : List (String × String)
  percent : ℤ
  summary : String
deriving DecidableEq, Repr

/-- The safe fallback record of `_compute_for_symbol` (lines 520-529):
all timeframes `"No Data"`, percent 0, summary `"No Confluence"` (the
`Pair` key is attached later by `get_confluence`). -/
def degradedRecord (sym : String) : ConfRecord :=
  { pair := "", symbol := sym,
    confluence := tfNames.map (fun tf => (tf, "No Data")),
    percent := 0, summary := "No Confluence" }

/-- `_compute_for_symbol` wrapped in its `try/except`: the body (the
downloads, analyses and aggregation, which depend on the network) is an
oracle returning either the assembled record or an exception; any
exception is caught and replaced by the degraded record. -/
def computeForSymbol (body : String → Except Unit ConfRecord) (sym : String) :
    ConfRecord :=
  match body sym with
  | .ok r => r
  | .error _ => degradedRecord sym

/-- `res["Pair"] = pair_label` in `get_confluence`. -/
def withPair (p : String) (r : ConfRecord) : ConfRecord := { r with pair := p }

/-- `get_confluence` from `src/backend/confluence.py` (lines 532-542):
iterate `PAIRS` in order, compute each record, attach the pair label,
collect. -/
def getConfluence (body : String → Except Unit ConfRecord) : List ConfRecord :=
  pairsList.map (fun p => withPair p.pair (computeForSymbol body p.symbol))

/-- The majority selector of `_compute_for_symbol`'s percent: the strict
majority direction's tally if one direction strictly exceeds both the
other direction and the neutrals, otherwise the largest of the three
tallies (neutrals included). -/
def mSel (b r n : ℕ) : ℕ :=
  if b > r ∧ b > n then b
  else if r > b ∧ r > n then r
  else max b (max r n)

/-- All-equal-field bar, the shape used by the concrete test series. -/
def flatBar (c : ℚ) : Bar := ⟨c, c, c, c, 0⟩

/-- Bar with a given high, zero elsewhere (for the BOS series). -/
def hiBar (h : ℚ) : Bar := ⟨0, h, 0, 0, 0⟩

/-- Five-bar test series: local maxima of the highs at indices 1 and 3,
6 above 5, the latest 2 bars from the end. -/
def bosShort : List Bar := [hiBar 0, hiBar 5, hiBar 0, hiBar 6, hiBar 0]

/-- 210-bar test series: highs strictly increasing through index 204,
then local maxima at indices 205 (300) and 207 (400). -/
def bosLong : List Bar :=
  ((List.range 205).map (fun i => hiBar (i : ℚ))) ++
    [hiBar 300, hiBar 0, hiBar 400, hiBar 0, hiBar 0]

/-- Seven-bar test series with a recent break of structure upward. -/
def bosSeven : List Bar :=
  [hiBar 0, hiBar 5, hiBar 0, hiBar 6, hiBar 0, hiBar 0, hiBar 0]

/-- Twelve-bar test series: ten bars at 100, a crash to 10, a recovery
to 95 — the price ends above the EMA(20) while the EMA is falling. -/
def c4bars : List Bar := (List.replicate 10 (flatBar 100)) ++ [flatBar 10, flatBar 95]

/-- Test oracle for the orchestrator: processing `USDJPY=X` raises, every
other symbol succeeds with a fixed record. -/
def exBody : String → Except Unit ConfRecord :=
  fun s =>
    if s = "USDJPY=X" then Except.error ()
    else Except.ok { pair := "", symbol := s, confluence := [], percent := 42, summary := "ok" }

/-! ## Helper lemmas -/

theorem pyRound_intCast (z : ℤ) : pyRound (z : ℚ) = z := by
  simp [pyRound]

theorem pctOf_four (c : ℕ) : pctOf c 4 = 25 * c := by
  have h : ((c : ℚ) / (4 : ℕ) * 100) = ((25 * c : ℤ) : ℚ) := by
    push_cast; ring
  rw [pctOf, h, pyRound_intCast]

theorem dirflag_count_sum (fs : List DirFlag) :
    fs.count DirFlag.bull + fs.count DirFlag.bear + fs.count DirFlag.neutral
      = fs.length := by
  induction fs with
  | nil => rfl
  | cons a t ih =>
    cases a <;> simp [List.count_cons] <;> omega

theorem aggPercentCounts_mSel (b r n : ℕ) :
    aggPercentCounts b r n 4 = 25 * (mSel b r n : ℕ) := by
  unfold aggPercentCounts mSel
  split_ifs <;> rw [pctOf_four]

theorem mSel_ge_two (b r n : ℕ) (h : b + r + n = 4) :
    2 ≤ mSel b r n ∧ mSel b r n ≤ 4 := by
  unfold mSel
  split_ifs <;> omega

theorem dir_filter_count_sum (l : List String) :
    (l.filter (fun v => v == "Bullish" || v == "Bearish")).count "Bullish" +
      (l.filter (fun v => v == "Bullish" || v == "Bearish")).count "Bearish" =
      (l.filter (fun v => v == "Bullish" || v == "Bearish")).length := by
  induction l with
  | nil => rfl
  | cons a t ih =>
    by_cases hb : a = "Bullish"
    · subst hb
      rw [List.filter_cons_of_pos (by decide), List.count_cons, List.count_cons,
        List.length_cons]
      have e1 : (("Bullish" : String) == "Bullish") = true := by decide
      have e2 : (("Bullish" : String) == "Bearish") = false := by decide
      rw [e1, e2]
      simp only [eq_self_iff_true, if_true, Bool.false_eq_true, if_false]
      omega
    · by_cases hr : a = "Bearish"
      · subst hr
        rw [List.filter_cons_of_pos (by decide), List.count_cons, List.count_cons,
          List.length_cons]
        have e1 : (("Bearish" : String) == "Bullish") = false := by decide
        have e2 : (("Bearish" : String) == "Bearish") = true := by decide
        rw [e1, e2]
        simp only [eq_self_iff_true, if_true, Bool.false_eq_true, if_false]
        omega
      · rw [List.filter_cons_of_neg (by simp [hb, hr])]
        exact ih

theorem afterMiss_invoked (c : DlCache) (now : ℤ) (k : CacheKey)
    (src : ℕ → Option ℕ) (retries : ℕ) :
    (afterMiss c now k src retries).2.2 = true := by
  unfold afterMiss
  split <;> rfl

theorem localMax_eq_spec (h : List ℚ) (hl : h.length ≤ 201) :
    localMaxIdxCapped h = specLocalMax h := by
  unfold localMaxIdxCapped specLocalMax
  rw [min_eq_left (by omega)]

theorem localMin_eq_spec (l : List ℚ) (hl : l.length ≤ 201) :
    localMinIdxCapped l = specLocalMin l := by
  unfold localMinIdxCapped specLocalMin
  rw [min_eq_left (by omega)]

theorem bosUp_eq_spec (h : List ℚ) (hl : h.length ≤ 201) :
    bosUpFire h = specBosUp h := by
  unfold bosUpFire specBosUp
  rw [localMax_eq_spec h hl]

theorem bosDown_eq_spec (l : List ℚ) (hl : l.length ≤ 201) :
    bosDownFire l = specBosDown l := by
  unfold bosDownFire specBosDown
  rw [localMin_eq_spec l hl]

theorem foldl_min_le (xs : List (ℕ × Bar)) (a : ℕ) :
    xs.foldl (fun acc p => min acc p.1) a ≤ a := by
  induction xs generalizing a with
  | nil => simp
  | cons y ys ih =>
    simp only [List.foldl_cons]
    exact le_trans (ih (min a y.1)) (min_le_left _ _)

theorem foldl_min_eq_or_mem (xs : List (ℕ × Bar)) (a : ℕ) :
    xs.foldl (fun acc p => min acc p.1) a = a ∨
      ∃ p ∈ xs, xs.foldl (fun acc p => min acc p.1) a = p.1 := by
  induction xs generalizing a with
  | nil => exact Or.inl rfl
  | cons y ys ih =>
    simp only [List.foldl_cons]
    rcases ih (min a y.1) with h | ⟨p, hp, he⟩
    · rcases min_choice a y.1 with hm | hm
      · exact Or.inl (h.trans hm)
      · exact Or.inr ⟨y, List.mem_cons_self _ _, h.trans hm⟩
    · exact Or.inr ⟨p, List.mem_cons_of_mem _ hp, he⟩

theorem le_foldl_max (xs : List (ℕ × Bar)) (a : ℕ) :
    a ≤ xs.foldl (fun acc p => max acc p.1) a := by
  induction xs generalizing a with
  | nil => simp
  | cons y ys ih =>
    simp only [List.foldl_cons]
    exact le_trans (le_max_left _ _) (ih (max a y.1))

theorem ffillAt_isSome_of_le (df : List (ℕ × Bar)) (t : ℕ)
    (h : ∃ p ∈ df, p.1 ≤ t) : ∃ b, ffillAt df t = some b := by
  obtain ⟨p, hp, hle⟩ := h
  have hfil : df.filter (fun p => p.1 ≤ t) ≠ [] := by
    rw [Ne, List.filter_eq_nil_iff]
    push_neg
    exact ⟨p, hp, by simpa⟩
  obtain ⟨q, hq⟩ := Option.isSome_iff_exists.mp (List.getLast?_isSome.mpr hfil)
  exact ⟨q.2, by simp [ffillAt, hq]⟩

/-! ## Claim theorems -/

/-- Claim C1, counterexample.  On an analysis map with no directional
timeframe (all four trend labels `None`, i.e. "No Data"), the
aggregation of `_compute_for_symbol` returns percent 100 and summary
"100% confluence" — not percent 0 / "No Confluence" as claimed — because
"No Data" is flagged neutral and the neutral majority is scored by the
`max(bulls, bears, neutrals)` fallback; and `calculate_confluence` on
four empty trends returns summary "No Data", not "No Confluence". -/
theorem c1_counterexample :
    aggregateBackend [none, none, none, none] = (100, "100% confluence") ∧
    aggregateBackend [none, none, none, none] ≠ (0, "No Confluence") ∧
    calcTwelve ["", "", "", ""] = (0, "No Data") ∧
    calcTwelve ["", "", "", ""] ≠ (0, "No Confluence") := by decide

/-- Claim C1, amended.  For a four-timeframe analysis map in which no
timeframe is directional (every flag neutral, which covers all-"No
Data"), the aggregation of `_compute_for_symbol` returns percent 100
and summary "100% confluence"; `calculate_confluence` on all-empty
trends returns percent 0 with summary "No Data". -/
theorem c1_all_no_data_aggregation :
    (∀ labels : List (Option String), labels.length = 4 →
      (∀ l ∈ labels, dirFlag l = DirFlag.neutral) →
      aggregateBackend labels = (100, "100% confluence")) ∧
    (∀ trends : List String, (∀ t ∈ trends, t = "") →
      calcTwelve trends = (0, "No Data")) := by
  constructor
  · intro labels h hall
    have hf : labels.map dirFlag = List.replicate 4 DirFlag.neutral := by
      rw [List.eq_replicate_iff]
      refine ⟨by simp [h], ?_⟩
      intro b hb
      obtain ⟨l, hl, rfl⟩ := List.mem_map.mp hb
      exact hall l hl
    have h100 : aggPercent labels = 100 := by
      simp only [aggPercent, hf]
      decide
    have hfst : aggregateBackend labels = (aggPercent labels,
        if 0 < aggPercent labels then toString (aggPercent labels) ++ "% confluence"
        else "No Confluence") := rfl
    rw [hfst, h100]
    decide
  · intro trends hall
    have hnil : trends.filter (fun v => v != "") = [] := by
      rw [List.filter_eq_nil_iff]
      intro a ha
      simp [hall a ha]
    simp only [calcTwelve, hnil]
    decide

theorem c1_witness :
    aggregateBackend [some "Neutral", some "Neutral", some "Neutral", some "Neutral"]
      = (100, "100% confluence") ∧
    calcTwelve ["", "", "", ""] = (0, "No Data") :=
  ⟨c1_all_no_data_aggregation.1
      [some "Neutral", some "Neutral", some "Neutral", some "Neutral"]
      (by decide) (by decide),
   c1_all_no_data_aggregation.2 ["", "", "", ""] (by decide)⟩

/-- Claim C2, counterexample.  On the scenario map
`[Bullish, Bullish, Bullish, Bearish]` the `_compute_for_symbol`
aggregation produces summary "75% confluence", not "Bullish Bias"; and
in `calculate_confluence`, three valid timeframes that all agree
produce "Bullish Bias", not "Strong <Direction>" as claimed for
unanimous valid timeframes. -/
theorem c2_counterexample :
    (aggregateBackend [some "Bullish", some "Bullish", some "Bullish", some "Bearish"]).2
      = "75% confluence" ∧
    calcTwelve ["Bullish", "Bullish", "Bullish", ""] = (75, "Bullish Bias") := by decide

/-- Claim C2, amended.  On `[Bullish, Bullish, Bullish, Bearish]` both
aggregators return percent 75; `calculate_confluence` returns summary
"Bullish Bias" but `_compute_for_symbol` returns "75% confluence" —
its summary is always `"<percent>% confluence"` whenever percent is
positive, never a direction word.  In `calculate_confluence`, summary
"Strong Bullish" requires the bullish count to equal 4, the total
number of configured timeframes, not merely all valid timeframes. -/
theorem c2_scenario_and_summary_shape :
    aggregateBackend [some "Bullish", some "Bullish", some "Bullish", some "Bearish"]
      = (75, "75% confluence") ∧
    calcTwelve ["Bullish", "Bullish", "Bullish", "Bearish"] = (75, "Bullish Bias") ∧
    (∀ labels : List (Option String), 0 < (aggregateBackend labels).1 →
      (aggregateBackend labels).2 = toString (aggregateBackend labels).1 ++ "% confluence") ∧
    (∀ trends : List String, (calcTwelve trends).2 = "Strong Bullish" →
      (trends.filter (fun v => v != "")).countP (fun v => strHas v "Bull") = 4) := by
  refine ⟨by decide, by decide, ?_, ?_⟩
  · intro labels h
    have hfst : (aggregateBackend labels).1 = aggPercent labels := rfl
    rw [hfst] at h
    have hsnd : (aggregateBackend labels).2 =
        if 0 < aggPercent labels then toString (aggPercent labels) ++ "% confluence"
        else "No Confluence" := rfl
    rw [hsnd, if_pos h, hfst]
  · intro trends h
    simp only [calcTwelve] at h
    split_ifs at h with h1 h2 h3 h4 h5 h6 h7 <;> simp_all

theorem c2_witness :
    (aggregateBackend [some "Bullish", some "Bullish", some "Bullish", some "Bullish"]).2
      = toString (aggregateBackend
          [some "Bullish", some "Bullish", some "Bullish", some "Bullish"]).1
        ++ "% confluence" ∧
    (["Bullish", "Bullish", "Bullish", "Bullish"].filter (fun v => v != "")).countP
      (fun v => strHas v "Bull") = 4 :=
  ⟨c2_scenario_and_summary_shape.2.2.1
      [some "Bullish", some "Bullish", some "Bullish", some "Bullish"] (by decide),
   c2_scenario_and_summary_shape.2.2.2 ["Bullish", "Bullish", "Bullish", "Bullish"]
      (by decide)⟩

/-- Claim C3, counterexample.  `_analyze_tf` has no minimum-bar
threshold: a two-bar series — far below any threshold proportional to
the EMA window of 20, and below the 10-bar floor its sibling
`analyze_series` uses — is given the directional label
"Strong Bullish" instead of "No Data". -/
theorem c3_counterexample :
    ([flatBar 1, flatBar 2] : List Bar).length = 2 ∧
    (analyzeTf [flatBar 1, flatBar 2] "H1").trendLabel = some "Strong Bullish" := by decide

/-- Claim C3, amended.  `analyze_series` returns the neutral/empty
analysis (`trend = ""`) whenever the series is empty or shorter than 10
bars (a fixed constant, not proportional to the trend window).
`_analyze_tf` has no minimum-bar threshold: it returns a "No Data"
record for an empty series, and for a non-empty series only on the
degenerate edge where the last EMA and the last price are both zero
(the `ZeroDivisionError` caught by its bare except, which returns the
record with the price and ATR already filled in); every other
non-empty series, however short, is assigned a trend label. -/
theorem c3_no_data_guards :
    (∀ df : List Bar, df.length < 10 →
      analyzeSeries df = { trend := "", distancePct := 0, bos := "" }) ∧
    (∀ tf : String, analyzeTf [] tf = initOut) ∧
    (∀ (bars : List Bar) (tf : String), bars ≠ [] →
      emaLastOf bars tf = 0 → lastCloseOf bars = 0 →
      analyzeTf bars tf =
        { initOut with atr := some (atrLast bars), price := some (lastCloseOf bars) }) ∧
    (∀ (bars : List Bar) (tf : String), bars ≠ [] →
      ¬(emaLastOf bars tf = 0 ∧ lastCloseOf bars = 0) →
      ∃ s, (analyzeTf bars tf).trendLabel = some s) := by
  refine ⟨?_, ?_, ?_, ?_⟩
  · intro df h
    simp only [analyzeSeries]
    rw [if_pos h]
  · intro tf
    rfl
  · intro bars tf hne h1 h2
    have hemp : bars.isEmpty = false := by
      simpa [List.isEmpty_iff] using hne
    simp only [analyzeTf, hemp, Bool.false_eq_true, if_false]
    rw [if_pos ⟨h1, h2⟩]
  · intro bars tf hne h0
    have hemp : bars.isEmpty = false := by
      simpa [List.isEmpty_iff] using hne
    simp only [analyzeTf, hemp, Bool.false_eq_true, if_false, h0]
    exact ⟨_, rfl⟩

theorem c3_witness :
    analyzeSeries [flatBar 1] = { trend := "", distancePct := 0, bos := "" } ∧
    analyzeTf [] "H1" = initOut ∧
    analyzeTf [flatBar 0] "H1" =
      { initOut with
          atr := some (atrLast [flatBar 0])
          price := some (lastCloseOf [flatBar 0]) } ∧
    ∃ s, (analyzeTf [flatBar 1, flatBar 2] "H1").trendLabel = some s :=
  ⟨c3_no_data_guards.1 [flatBar 1] (by decide),
   c3_no_data_guards.2.1 "H1",
   c3_no_data_guards.2.2.1 [flatBar 0] "H1" (by decide) (by decide) (by decide),
   c3_no_data_guards.2.2.2 [flatBar 1, flatBar 2] "H1" (by decide) (by decide)⟩

/-- Claim C4, counterexample.  On a 12-bar series whose last EMA(20) is
falling (spec slope `last_ema − ema[-3]` is negative) while the last
price sits 3.5% above the EMA, `_analyze_tf` labels the timeframe
"Strong Bullish", whereas the spec's five-rule table (slope agreement
required) classifies it "Neutral" — a "Strong" label is produced
without slope agreement. -/
theorem c4_counterexample :
    (analyzeTf c4bars "H1").trendLabel = some "Strong Bullish" ∧
    specSlope (closesOf c4bars) 20 < 0 ∧
    specTrendTable (trendPctOf c4bars "H1") (specSlope (closesOf c4bars) 20) 0.008
      = "Neutral" := by decide

/-- Claim C4, amended.  The trend classification of `_analyze_tf` uses
only the sign of `trend_pct` and the adaptive `_is_strong` flag — no
EMA slope is computed or consulted: positive distance gives Bullish
(Strong Bullish when the flag holds), negative gives Bearish (Strong
Bearish), and exactly zero gives Neutral. -/
theorem c4_sign_only_classification :
    ∀ (bars : List Bar) (tf : String), bars ≠ [] →
      ¬(emaLastOf bars tf = 0 ∧ lastCloseOf bars = 0) →
      (analyzeTf bars tf).trendLabel =
        some (signClassify (trendPctOf bars tf) (strongOf bars tf)) := by
  intro bars tf hne h0
  have hemp : bars.isEmpty = false := by
    simpa [List.isEmpty_iff] using hne
  simp only [analyzeTf, signClassify, hemp, Bool.false_eq_true, if_false, h0]
  by_cases hs : strongOf bars tf <;>
    by_cases hd : 0 < trendPctOf bars tf <;>
    by_cases hd2 : trendPctOf bars tf < 0 <;>
    simp [hs, hd, hd2]

theorem c4_witness :
    (analyzeTf [flatBar 2, flatBar 1] "H1").trendLabel =
      some (signClassify (trendPctOf [flatBar 2, flatBar 1] "H1")
        (strongOf [flatBar 2, flatBar 1] "H1")) :=
  c4_sign_only_classification [flatBar 2, flatBar 1] "H1" (by decide) (by decide)

/-- Claim C5, counterexample.  `[Bullish, Neutral, Neutral, Neutral]`:
the spec formula `round(100·max(bull, bear)/valid)` gives 25, but
`_compute_for_symbol` returns 75 (the neutral majority is scored);
and `confidence_pct` on (Bullish, Bullish, Sideways, Sideways) returns
100, not the 50 of the spec formula, because Sideways timeframes are
dropped from its denominator. -/
theorem c5_counterexample :
    aggPercent [some "Bullish", some "Neutral", some "Neutral", some "Neutral"] = 75 ∧
    specPercent 1 0 4 = 25 ∧
    confidencePct (some "Bullish") (some "Bullish") (some "Sideways") (some "Sideways")
      = 100 ∧
    specPercent 2 0 4 = 50 := by decide

/-- Claim C5, amended.  In `_compute_for_symbol` the percent is
`round(100·m/4)` over all four timeframes ("No Data" counted as
neutral), where `m` is the directional tally only when it strictly
exceeds both the other direction and the neutral count, and otherwise
`max(bulls, bears, neutrals)`; in `confidence_pct` the percent is
`round(100·max(bull, bear)/(bull + bear))`, the denominator being the
directional count only (Sideways and missing timeframes excluded),
with 0 when no timeframe is directional. -/
theorem c5_percent_formulas :
    (∀ labels : List (Option String), labels.length = 4 →
      aggPercent labels = 25 * (mSel ((labels.map dirFlag).count DirFlag.bull)
        ((labels.map dirFlag).count DirFlag.bear)
        ((labels.map dirFlag).count DirFlag.neutral) : ℕ)) ∧
    (∀ w d h4 h1 : Option String,
      confidencePct w d h4 h1 =
        if dirVals w d h4 h1 = [] then 0
        else pyRound (100 *
          (max ((dirVals w d h4 h1).count "Bullish")
            ((dirVals w d h4 h1).count "Bearish") : ℚ) /
          ((((dirVals w d h4 h1).count "Bullish" +
            (dirVals w d h4 h1).count "Bearish" : ℕ)) : ℚ))) := by
  constructor
  · intro labels h
    have hflags : (labels.map dirFlag).length = 4 := by simp [h]
    have hp : aggPercent labels =
        aggPercentCounts ((labels.map dirFlag).count DirFlag.bull)
          ((labels.map dirFlag).count DirFlag.bear)
          ((labels.map dirFlag).count DirFlag.neutral) 4 := by
      simp [aggPercent, hflags]
    rw [hp, aggPercentCounts_mSel]
  · intro w d h4 h1
    by_cases hv : dirVals w d h4 h1 = []
    · simp [confidencePct, hv]
    · rw [if_neg hv]
      have hlen : (dirVals w d h4 h1).count "Bullish" +
          (dirVals w d h4 h1).count "Bearish" = (dirVals w d h4 h1).length :=
        dir_filter_count_sum _
      have hne : (dirVals w d h4 h1).isEmpty = false := by
        simpa [List.isEmpty_iff] using hv
      simp only [confidencePct, hne]
      rw [hlen]
      simp only [Bool.false_eq_true, if_false]
      congr 1
      ring

theorem c5_witness :
    aggPercent [some "Bullish", none, none, none] =
      25 * (mSel (([some "Bullish", none, none, none].map dirFlag).count DirFlag.bull)
        (([some "Bullish", none, none, none].map dirFlag).count DirFlag.bear)
        (([some "Bullish", none, none, none].map dirFlag).count DirFlag.neutral) : ℕ) ∧
    confidencePct (some "Bullish") none none none =
      if dirVals (some "Bullish") none none none = [] then 0
      else pyRound (100 *
        (max ((dirVals (some "Bullish") none none none).count "Bullish")
          ((dirVals (some "Bullish") none none none).count "Bearish") : ℚ) /
        ((((dirVals (some "Bullish") none none none).count "Bullish" +
          (dirVals (some "Bullish") none none none).count "Bearish" : ℕ)) : ℚ)) :=
  ⟨c5_percent_formulas.1 [some "Bullish", none, none, none] (by decide),
   c5_percent_formulas.2 (some "Bullish") none none none⟩

/-- Claim C6, confirmed.  `get_confluence` produces exactly one record
per configured instrument, in configuration order, each the label-
tagged output of `_compute_for_symbol`; and `_compute_for_symbol`
replaces any exception from its body with the degraded record (all
timeframes "No Data", percent 0, summary "No Confluence") while a
successful body is passed through unchanged, so one instrument's
failure never disturbs the others or aborts the batch. -/
theorem c6_batch_isolation :
    ∀ body : String → Except Unit ConfRecord,
      (getConfluence body).length = pairsList.length ∧
      (∀ i : ℕ, (getConfluence body)[i]? =
        (pairsList[i]?).map (fun p => withPair p.pair (computeForSymbol body p.symbol))) ∧
      (∀ sym, body sym = .error () → computeForSymbol body sym = degradedRecord sym) ∧
      (∀ sym r, body sym = .ok r → computeForSymbol body sym = r) := by
  intro body
  refine ⟨List.length_map _ _, ?_, ?_, ?_⟩
  · intro i
    simp [getConfluence, List.getElem?_map]
  · intro sym h
    simp [computeForSymbol, h]
  · intro sym r h
    simp [computeForSymbol, h]

theorem c6_witness :
    (getConfluence exBody)[2]? = some (withPair "USD/JPY" (degradedRecord "USDJPY=X")) ∧
    (getConfluence exBody)[0]? = some (withPair "EUR/USD"
      { pair := "", symbol := "EURUSD=X", confluence := [], percent := 42,
        summary := "ok" }) ∧
    (getConfluence exBody).length = 23 ∧
    computeForSymbol exBody "USDJPY=X" = degradedRecord "USDJPY=X" := by
  have h := c6_batch_isolation exBody
  refine ⟨?_, ?_, ?_, h.2.2.1 "USDJPY=X" rfl⟩
  · rw [h.2.1 2]
    decide
  · rw [h.2.1 0]
    decide
  · rw [h.1]
    decide

/-- Claim C7, counterexample.  The cache key of `_cached_download` is
`(symbol, interval, start)`, not `(symbol, interval)`: two immediate
fetches of the same (symbol, interval) with different `start` windows
both invoke the external source, the second one 1 second after the
first, far inside the 180-second TTL. -/
theorem c7_counterexample :
    (cachedDownload [] 0 "EURUSD=X" "1d" (some "2024-01-01")
      (fun _ => some 7) 2).2.2 = true ∧
    (cachedDownload
      (cachedDownload [] 0 "EURUSD=X" "1d" (some "2024-01-01")
        (fun _ => some 7) 2).2.1
      1 "EURUSD=X" "1d" (some "2024-01-02") (fun _ => some 7) 2).2.2 = true ∧
    (1 : ℤ) - 0 < cacheTTL := by decide

/-- Claim C7, amended.  For every `(symbol, interval, start)` key: a
fetch that finds a live cache entry (strictly younger than the
180-second TTL) returns the entry verbatim without touching the cache
or the source — this includes a cached `None` failure marker, which
short-circuits — while a fetch whose entry has aged to or past the TTL,
or which finds no entry, invokes the source again. -/
theorem c7_ttl_cache :
    ∀ (c : DlCache) (now : ℤ) (sym itv : String) (start : Option String)
      (src : ℕ → Option ℕ) (retries : ℕ) (ts : ℤ) (df : Option ℕ),
      (List.lookup (sym, itv, start.getD "") c = some (ts, df) →
        ((now - ts < cacheTTL →
          cachedDownload c now sym itv start src retries = (df, c, false)) ∧
         (cacheTTL ≤ now - ts →
          (cachedDownload c now sym itv start src retries).2.2 = true))) ∧
      (List.lookup (sym, itv, start.getD "") c = none →
        (cachedDownload c now sym itv start src retries).2.2 = true) := by
  intro c now sym itv start src retries ts df
  constructor
  · intro hl
    constructor
    · intro httl
      simp only [cachedDownload, hl]
      rw [if_pos httl]
    · intro httl
      simp only [cachedDownload, hl]
      rw [if_neg (by omega)]
      exact afterMiss_invoked _ _ _ _ _
  · intro hl
    simp only [cachedDownload, hl]
    exact afterMiss_invoked _ _ _ _ _

theorem c7_witness :
    cachedDownload [(("EURUSD=X", "1d", ""), (0, none))] 10 "EURUSD=X" "1d" none
      (fun _ => some 5) 2 = (none, [(("EURUSD=X", "1d", ""), (0, none))], false) ∧
    (cachedDownload [(("EURUSD=X", "1d", ""), (0, (some 3 : Option ℕ)))] 400
      "EURUSD=X" "1d" none (fun _ => some 5) 2).2.2 = true := by
  have h1 := c7_ttl_cache [(("EURUSD=X", "1d", ""), (0, none))] 10 "EURUSD=X" "1d"
    none (fun _ => some 5) 2 0 none
  have h2 := c7_ttl_cache [(("EURUSD=X", "1d", ""), (0, some 3))] 400 "EURUSD=X" "1d"
    none (fun _ => some 5) 2 0 (some 3)
  exact ⟨(h1.1 (by decide)).1 (by decide), (h2.1 (by decide)).2 (by decide)⟩

/-- Claim C8, counterexample.  `_resample_from_daily` has no
fewer-than-2-bars guard: a single-bar daily source resampled at the 4H
rule yields a non-empty synthetic series of 6 bars rather than Empty. -/
theorem c8_counterexample :
    resampleFromDaily [(0, flatBar 1)] 4 ≠ none ∧
    ((resampleFromDaily [(0, flatBar 1)] 4).getD []).length = 6 := by decide

/-- Claim C8, amended.  `_resample_from_daily` returns Empty exactly for
a `None`/Empty source; every non-empty source — a single bar included —
produces a non-empty synthetic series, because the grid spans at least
the one day past the last source bar and the first grid point
forward-fills from the earliest bar. -/
theorem c8_resample_guards :
    ∀ (df : List (ℕ × Bar)) (step : ℕ), 1 ≤ step →
      (df = [] → resampleFromDaily df step = none) ∧
      (df ≠ [] → ∃ r, resampleFromDaily df step = some r ∧ r ≠ []) := by
  intro df step hstep
  constructor
  · intro h
    subst h
    rfl
  · intro hne
    cases df with
    | nil => exact absurd rfl hne
    | cons x xs =>
      refine ⟨_, rfl, ?_⟩
      intro hcontra
      set start := xs.foldl (fun a p => min a p.1) x.1 with hstart
      set mx := xs.foldl (fun a p => max a p.1) x.1 with hmx
      have hstart_le : start ≤ x.1 := foldl_min_le xs x.1
      have hx_le : x.1 ≤ mx := le_foldl_max xs x.1
      have hn : 1 ≤ (mx + 24 - start + step - 1) / step := by
        rw [Nat.one_le_div_iff (by omega)]
        omega
      have hmem : start ∈ (List.range ((mx + 24 - start + step - 1) / step)).map
          (fun i => start + i * step) :=
        List.mem_map.mpr ⟨0, List.mem_range.mpr (by omega), by simp⟩
      have hexists : ∃ p ∈ (x :: xs), p.1 ≤ start := by
        rcases foldl_min_eq_or_mem xs x.1 with h | ⟨p, hp, he⟩
        · exact ⟨x, List.mem_cons_self _ _, le_of_eq h.symm⟩
        · exact ⟨p, List.mem_cons_of_mem _ hp, le_of_eq he.symm⟩
      obtain ⟨b, hb⟩ := ffillAt_isSome_of_le (x :: xs) start hexists
      have := List.filterMap_eq_nil_iff.mp hcontra start hmem
      rw [hb] at this
      simp at this

theorem c8_witness :
    resampleFromDaily ([] : List (ℕ × Bar)) 4 = none ∧
    ∃ r, resampleFromDaily [(0, flatBar 1), (24, flatBar 2)] 4 = some r ∧ r ≠ [] :=
  ⟨(c8_resample_guards [] 4 (by decide)).1 rfl,
   (c8_resample_guards [(0, flatBar 1), (24, flatBar 2)] 4 (by decide)).2 (by decide)⟩

set_option maxRecDepth 40000 in
/-- Claim C9, counterexample.  The two-most-recent-local-maxima rule is
not what `_detect_bos` implements on all series: a 5-bar series whose
highs have increasing recent maxima within the last 8 bars (spec:
BOS-up) returns no signal because of the `len < 6` guard, and a 210-bar
series with fresh increasing maxima at indices 205 and 207 (spec:
BOS-up) returns no signal because the scan stops at index 199. -/
theorem c9_counterexample :
    specBosUp (bosShort.map (·.high)) = true ∧ detectBos bosShort = "" ∧
    specBosUp (bosLong.map (·.high)) = true ∧ detectBos bosLong = "" := by decide

/-- Claim C9, amended.  For series of 6 to 201 bars — at least 6 bars,
and short enough that the scan cap at index 199 covers every interior
bar — `_detect_bos` emits BOS-up exactly when the two most recent local
maxima of the highs are increasing with the latest within the last 8
bars; BOS-down is emitted exactly when BOS-up does not fire and the
symmetric condition on the local minima of the lows holds; and on any
series at most one BOS direction is reported.  (Shorter series never
signal; on longer series swing points past index 199 are ignored.) -/
theorem c9_bos_characterization :
    ∀ bars : List Bar, 6 ≤ bars.length → bars.length ≤ 201 →
      ((detectBos bars = " (BOS_up)") ↔ specBosUp (bars.map (·.high)) = true) ∧
      ((detectBos bars = " (BOS_down)") ↔
        (specBosUp (bars.map (·.high)) = false ∧
          specBosDown (bars.map (·.low)) = true)) ∧
      (detectBos bars = "" ∨ detectBos bars = " (BOS_up)" ∨
        detectBos bars = " (BOS_down)") := by
  intro bars h6 h201
  have hh : (bars.map (·.high)).length ≤ 201 := by simpa using h201
  have hl : (bars.map (·.low)).length ≤ 201 := by simpa using h201
  have hdet : detectBos bars =
      (if bosUpFire (bars.map (·.high)) then " (BOS_up)"
       else if bosDownFire (bars.map (·.low)) then " (BOS_down)" else "") := by
    simp only [detectBos]
    rw [if_neg (by omega)]
  rw [hdet, bosUp_eq_spec _ hh, bosDown_eq_spec _ hl]
  cases hu : specBosUp (bars.map (·.high)) <;>
    cases hd : specBosDown (bars.map (·.low)) <;>
    simp

theorem c9_witness :
    detectBos bosSeven = " (BOS_up)" ∧ specBosUp (bosSeven.map (·.high)) = true :=
  ⟨((c9_bos_characterization bosSeven (by decide) (by decide)).1).mpr (by decide),
   by decide⟩

/-- Claim C10, confirmed.  On the non-exception path the four direction
flags partition the four timeframes, so the selected majority tally is
at least 2 and the ConfluencePercent of `_compute_for_symbol` is always
50, 75 or 100 — never below 50 — and the summary is never
"No Confluence" (that summary arises only from the exception
fallback). -/
theorem c10_percent_invariant :
    ∀ labels : List (Option String), labels.length = 4 →
      ((aggregateBackend labels).1 = 50 ∨ (aggregateBackend labels).1 = 75 ∨
        (aggregateBackend labels).1 = 100) ∧
      (aggregateBackend labels).2 ≠ "No Confluence" := by
  intro labels h
  have hflags : (labels.map dirFlag).length = 4 := by simp [h]
  have hsum := dirflag_count_sum (labels.map dirFlag)
  rw [hflags] at hsum
  have hp : aggPercent labels =
      aggPercentCounts ((labels.map dirFlag).count DirFlag.bull)
        ((labels.map dirFlag).count DirFlag.bear)
        ((labels.map dirFlag).count DirFlag.neutral) 4 := by
    simp [aggPercent, hflags]
  rw [aggPercentCounts_mSel] at hp
  set m := mSel ((labels.map dirFlag).count DirFlag.bull)
      ((labels.map dirFlag).count DirFlag.bear)
      ((labels.map dirFlag).count DirFlag.neutral) with hmdef
  obtain ⟨h2, h4⟩ := mSel_ge_two _ _ _ hsum
  rw [← hmdef] at h2 h4
  have hval : m = 2 ∨ m = 3 ∨ m = 4 := by omega
  have hfst : (aggregateBackend labels).1 = aggPercent labels := rfl
  have hsnd : (aggregateBackend labels).2 =
      if 0 < aggPercent labels then toString (aggPercent labels) ++ "% confluence"
      else "No Confluence" := rfl
  rcases hval with hv | hv | hv <;>
    rw [hv] at hp <;>
    norm_num at hp <;>
    rw [hfst, hsnd, hp] <;>
    norm_num <;>
    decide

theorem c10_witness :
    (((aggregateBackend [some "Strong Bullish", some "Bearish", none, none]).1 = 50 ∨
      (aggregateBackend [some "Strong Bullish", some "Bearish", none, none]).1 = 75 ∨
      (aggregateBackend [some "Strong Bullish", some "Bearish", none, none]).1 = 100) ∧
     (aggregateBackend [some "Strong Bullish", some "Bearish", none, none]).2
       ≠ "No Confluence") :=
  c10_percent_invariant [some "Strong Bullish", some "Bearish", none, none] (by decide)
